import Mathlib

/-!
Verification of the ansys/pymapdl-examples repository against its
natural-language specification.

The repository is a corpus of example scripts driving the external MAPDL
solver.  The only in-repo class is `Create` in
`examples/verif-manual/vm-008-parametric_calculation.py`; the scripts'
post-processing arithmetic (results-comparison tables, ratio columns) and
the corpus-level structural facts (lifecycle, exception handling, classes,
threading) are embedded below directly from the source files.
-/

/-- A Python value as it can be passed to the `Create` class of vm-008:
`None`, integers, rationals standing for Python floats, strings, and
(possibly nested, possibly heterogeneous) lists. -/
inductive PyVal where
  | pynone
  | int (n : Int)
  | rat (q : ℚ)
  | str (s : String)
  | list (xs : List PyVal)

/-- Error message of the first check in the `p1`/`p2` setters of `Create`
(vm-008 lines 153-154 and 169-170): the value must be a Python list. -/
def typeErrMsg : String := "The coordinates should be implemented by the list!"

/-- Error message of the second check in the `p1`/`p2` setters of `Create`
(vm-008 lines 156-159 and 172-175): the list must have exactly three items. -/
def lenErrMsg : String := "The coordinates should have three items in the list as [X, Y, Z]"

/-- The two checks performed by both coordinate-point setters of `Create`,
in source order: first `isinstance(new_value, list)`, then
`len(new_value) != 3`.  Returns the `ValueError` message when a check
fails, `none` when the value is accepted. -/
def pointCheck (newValue : PyVal) : Option String :=
  match newValue with
  | .list xs => if xs.length ≠ 3 then some lenErrMsg else none
  | _ => some typeErrMsg

/-- State of a `Create` instance from vm-008: the two stored coordinate
points `_p1` and `_p2` written by the property setters. -/
structure Create where
  _p1 : PyVal
  _p2 : PyVal

/-- Getter of the `p1` property (vm-008 lines 145-148). -/
def Create.p1 (self : Create) : PyVal := self._p1

/-- Getter of the `p2` property (vm-008 lines 162-164). -/
def Create.p2 (self : Create) : PyVal := self._p2

/-- Setter of the `p1` property (vm-008 lines 150-160).  A raised
`ValueError` is modelled as `some message` in the second component; the
raise happens before the assignment `self._p1 = new_value`, so on error
the returned state is the unchanged input state. -/
def Create.p1_assign (self : Create) (newValue : PyVal) : Create × Option String :=
  match pointCheck newValue with
  | some e => (self, some e)
  | none => ({ self with _p1 := newValue }, none)

/-- Setter of the `p2` property (vm-008 lines 166-176), same shape as
`Create.p1_assign`. -/
def Create.p2_assign (self : Create) (newValue : PyVal) : Create × Option String :=
  match pointCheck newValue with
  | some e => (self, some e)
  | none => ({ self with _p2 := newValue }, none)

/-- `Create.__init__` (vm-008 lines 108-111): `self.p1 = p1` then
`self.p2 = p2`, each going through the corresponding property setter.  A
`ValueError` escaping `__init__` means no instance is produced, modelled
by `Except.error`. -/
def Create.init (p1 p2 : PyVal) : Except String Create :=
  match pointCheck p1 with
  | some e => .error e
  | none =>
    match pointCheck p2 with
    | some e => .error e
    | none => .ok ⟨p1, p2⟩

/-- The acceptance condition of both setters: the value is a Python list
of exactly three elements. -/
def isList3 (v : PyVal) : Bool :=
  match v with
  | .list xs => xs.length == 3
  | _ => false

/-- A `pointCheck` failure is exactly a non-`isList3` value. -/
theorem pointCheck_isSome (v : PyVal) : (pointCheck v).isSome = !(isList3 v) := by
  cases v <;> simp [pointCheck, isList3]
  rename_i xs
  by_cases h : xs.length = 3 <;> simp [h]

/-- A value passing `pointCheck` is exactly an `isList3` value. -/
theorem pointCheck_eq_none (v : PyVal) : (pointCheck v = none) ↔ isList3 v = true := by
  cases v <;> simp [pointCheck, isList3]

/-- A failing `pointCheck` means a non-`isList3` value. -/
theorem pointCheck_eq_some {v : PyVal} {e : String} (h : pointCheck v = some e) :
    isList3 v = false := by
  have hs := pointCheck_isSome v
  rw [h] at hs
  simpa using hs.symm

/-- C1: every assignment to `Create.p1` or `Create.p2` — also the two
assignments performed by the `Create(p1, p2)` constructor — raises
`ValueError` exactly when the value is not a list of length 3, and a
successful assignment makes the corresponding getter return exactly the
assigned value. -/
theorem create_assignment_validates (s : Create) (v w : PyVal) :
    ((s.p1_assign v).2.isSome = !(isList3 v))
    ∧ ((s.p2_assign v).2.isSome = !(isList3 v))
    ∧ ((Create.init v w).isOk = (isList3 v && isList3 w))
    ∧ ((s.p1_assign v).2 = none → (s.p1_assign v).1.p1 = v)
    ∧ ((s.p2_assign v).2 = none → (s.p2_assign v).1.p2 = v)
    ∧ (∀ s', Create.init v w = .ok s' → s'.p1 = v ∧ s'.p2 = w) := by
  refine ⟨?_, ?_, ?_, ?_, ?_, ?_⟩
  · rw [← pointCheck_isSome]
    cases h : pointCheck v <;> simp [Create.p1_assign, h]
  · rw [← pointCheck_isSome]
    cases h : pointCheck v <;> simp [Create.p2_assign, h]
  · cases hv : pointCheck v with
    | some e => simp [Create.init, hv, Except.isOk, Except.toBool, pointCheck_eq_some hv]
    | none =>
      cases hw : pointCheck w with
      | some e =>
        simp [Create.init, hv, hw, Except.isOk, Except.toBool,
          (pointCheck_eq_none v).mp hv, pointCheck_eq_some hw]
      | none =>
        simp [Create.init, hv, hw, Except.isOk, Except.toBool,
          (pointCheck_eq_none v).mp hv, (pointCheck_eq_none w).mp hw]
  · intro h
    cases hv : pointCheck v <;> simp [Create.p1_assign, hv, Create.p1] at h ⊢
  · intro h
    cases hv : pointCheck v <;> simp [Create.p2_assign, hv, Create.p2] at h ⊢
  · intro s' h
    cases hv : pointCheck v <;> cases hw : pointCheck w <;>
      simp [Create.init, hv, hw] at h
    exact ⟨by simp [← h, Create.p1], by simp [← h, Create.p2]⟩

/-- Witness for C1 at the concrete keypoint list `[100, 0, 30]` used by
vm-008 itself. -/
theorem create_assignment_validates_witness :
    (Create.p1_assign ⟨PyVal.list [.int 100, .int 0, .int 30], PyVal.list [.int 100, .int 0, .int 30]⟩
        (PyVal.list [.int 100, .int 0, .int 30])).2 = none
    ∧ Create.init (PyVal.list [.int 100, .int 0, .int 30]) (PyVal.list [.int 100, .int 0, .int 30])
        = .ok ⟨PyVal.list [.int 100, .int 0, .int 30], PyVal.list [.int 100, .int 0, .int 30]⟩
    ∧ (Create.p1_assign ⟨PyVal.list [.int 100, .int 0, .int 30], PyVal.list [.int 100, .int 0, .int 30]⟩
        (PyVal.list [.int 100, .int 0, .int 30])).1.p1 = PyVal.list [.int 100, .int 0, .int 30]
    ∧ (⟨PyVal.list [.int 100, .int 0, .int 30], PyVal.list [.int 100, .int 0, .int 30]⟩ : Create).p1
        = PyVal.list [.int 100, .int 0, .int 30] := by
  have h := create_assignment_validates
    ⟨PyVal.list [.int 100, .int 0, .int 30], PyVal.list [.int 100, .int 0, .int 30]⟩
    (PyVal.list [.int 100, .int 0, .int 30]) (PyVal.list [.int 100, .int 0, .int 30])
  refine ⟨rfl, rfl, h.2.2.2.1 rfl, ?_⟩
  exact (h.2.2.2.2.2 ⟨PyVal.list [.int 100, .int 0, .int 30],
    PyVal.list [.int 100, .int 0, .int 30]⟩ rfl).1

/-- Invariant of a `Create` instance: both stored coordinate points are
Python lists of exactly three elements. -/
def Create.invariant (s : Create) : Prop :=
  isList3 s._p1 = true ∧ isList3 s._p2 = true

/-- C7: every successfully constructed `Create` instance satisfies the
three-element-list invariant; the invariant is preserved by every setter
assignment, raising or not; and an assignment that raises `ValueError`
does so before any mutation, leaving the stored points unchanged. -/
theorem create_invariant_atomic (s : Create) (v w : PyVal) :
    (∀ s₀, Create.init v w = .ok s₀ → s₀.invariant)
    ∧ (s.invariant → (s.p1_assign v).1.invariant)
    ∧ (s.invariant → (s.p2_assign v).1.invariant)
    ∧ ((s.p1_assign v).2.isSome = true → (s.p1_assign v).1 = s)
    ∧ ((s.p2_assign v).2.isSome = true → (s.p2_assign v).1 = s) := by
  refine ⟨?_, ?_, ?_, ?_, ?_⟩
  · intro s₀ h
    cases hv : pointCheck v <;> cases hw : pointCheck w <;>
      simp [Create.init, hv, hw] at h
    rw [← h]
    exact ⟨(pointCheck_eq_none v).mp hv, (pointCheck_eq_none w).mp hw⟩
  · intro hs
    cases hv : pointCheck v with
    | some e => simpa [Create.p1_assign, hv] using hs
    | none =>
      exact ⟨by simpa [Create.p1_assign, hv] using (pointCheck_eq_none v).mp hv,
        by simpa [Create.p1_assign, hv] using hs.2⟩
  · intro hs
    cases hv : pointCheck v with
    | some e => simpa [Create.p2_assign, hv] using hs
    | none =>
      exact ⟨by simpa [Create.p2_assign, hv] using hs.1,
        by simpa [Create.p2_assign, hv] using (pointCheck_eq_none v).mp hv⟩
  · intro h
    cases hv : pointCheck v <;> simp [Create.p1_assign, hv] at h ⊢
  · intro h
    cases hv : pointCheck v <;> simp [Create.p2_assign, hv] at h ⊢

/-- Witness for C7: a concrete valid instance keeps its invariant through
a valid assignment, and an invalid assignment (`5`, not a list) leaves it
untouched. -/
theorem create_invariant_atomic_witness :
    Create.invariant ⟨PyVal.list [.int 1, .int 2, .int 3], PyVal.list [.int 1, .int 2, .int 3]⟩
    ∧ (Create.p1_assign ⟨PyVal.list [.int 1, .int 2, .int 3], PyVal.list [.int 1, .int 2, .int 3]⟩
        (PyVal.int 5)).1 = ⟨PyVal.list [.int 1, .int 2, .int 3], PyVal.list [.int 1, .int 2, .int 3]⟩
    ∧ (Create.p1_assign ⟨PyVal.list [.int 1, .int 2, .int 3], PyVal.list [.int 1, .int 2, .int 3]⟩
        (PyVal.list [.int 9, .int 9, .int 9])).1.invariant := by
  have hbad := create_invariant_atomic
    ⟨PyVal.list [.int 1, .int 2, .int 3], PyVal.list [.int 1, .int 2, .int 3]⟩ (PyVal.int 5) (PyVal.int 5)
  have hgood := create_invariant_atomic
    ⟨PyVal.list [.int 1, .int 2, .int 3], PyVal.list [.int 1, .int 2, .int 3]⟩
    (PyVal.list [.int 9, .int 9, .int 9]) (PyVal.list [.int 9, .int 9, .int 9])
  exact ⟨⟨rfl, rfl⟩, hbad.2.2.2.1 rfl, hgood.2.1 ⟨rfl, rfl⟩⟩

/-- C8: the setters check only that the value is a list of exactly three
elements, never the type of the elements: any three-element list, whatever
its contents, is accepted by both setters and by the constructor and is
stored exactly as given. -/
theorem create_elements_unchecked (s : Create) (xs ys : List PyVal)
    (hx : xs.length = 3) (hy : ys.length = 3) :
    ((s.p1_assign (.list xs)).2 = none ∧ (s.p1_assign (.list xs)).1.p1 = .list xs)
    ∧ ((s.p2_assign (.list xs)).2 = none ∧ (s.p2_assign (.list xs)).1.p2 = .list xs)
    ∧ Create.init (.list xs) (.list ys) = .ok ⟨.list xs, .list ys⟩ := by
  have hcx : pointCheck (.list xs) = none := by simp [pointCheck, hx]
  have hcy : pointCheck (.list ys) = none := by simp [pointCheck, hy]
  refine ⟨⟨?_, ?_⟩, ⟨?_, ?_⟩, ?_⟩ <;>
    simp [Create.p1_assign, Create.p2_assign, Create.init, Create.p1, Create.p2, hcx, hcy]

/-- Witness for C8 on a heterogeneous three-element list holding a string,
`None` and a nested list. -/
theorem create_elements_unchecked_witness :
    (Create.p1_assign ⟨PyVal.pynone, PyVal.pynone⟩
        (.list [.str "a", .pynone, .list [.int 1]])).2 = none
    ∧ Create.init (.list [.str "a", .pynone, .list [.int 1]])
        (.list [.str "a", .pynone, .list [.int 1]])
      = .ok ⟨.list [.str "a", .pynone, .list [.int 1]], .list [.str "a", .pynone, .list [.int 1]]⟩ := by
  have h := create_elements_unchecked ⟨PyVal.pynone, PyVal.pynone⟩
    [.str "a", .pynone, .list [.int 1]] [.str "a", .pynone, .list [.int 1]] rfl rfl
  exact ⟨h.1.1, h.2.2⟩

/-- One row of the vm-001 results-comparison table: the printed TARGET,
Mechanical APDL and RATIO columns.  Solver reactions are modelled as exact
rationals. -/
structure Vm001Row where
  target : ℚ
  mapdlValue : ℚ
  ratio : ℚ

/-- The two rows printed by vm-001 (lines 155-163): R1 with literal target
`900.0`, value `abs(reaction_1)` and ratio `abs(reaction_1) / 900`; R2
with literal target `600.0`, value `abs(reaction_2)` and ratio
`abs(reaction_2) / 600`. -/
def vm001_results (reaction_1 reaction_2 : ℚ) : Vm001Row × Vm001Row :=
  (⟨900, |reaction_1|, |reaction_1| / 900⟩, ⟨600, |reaction_2|, |reaction_2| / 600⟩)

/-- C2: for every pair of solver reactions, the vm-001 comparison table
shows the literal targets 900.0 and 600.0, and each printed ratio equals
the absolute value of the computed reaction divided by its target. -/
theorem vm001_results_table (reaction_1 reaction_2 : ℚ) :
    ((vm001_results reaction_1 reaction_2).1.target = 900)
    ∧ ((vm001_results reaction_1 reaction_2).2.target = 600)
    ∧ ((vm001_results reaction_1 reaction_2).1.ratio
        = |reaction_1| / (vm001_results reaction_1 reaction_2).1.target)
    ∧ ((vm001_results reaction_1 reaction_2).2.ratio
        = |reaction_2| / (vm001_results reaction_1 reaction_2).2.target)
    ∧ ((vm001_results reaction_1 reaction_2).1.mapdlValue = |reaction_1|)
    ∧ ((vm001_results reaction_1 reaction_2).2.mapdlValue = |reaction_2|) :=
  ⟨rfl, rfl, rfl, rfl, rfl, rfl⟩

/-- The ratio column built by both comparison tables of vm-nr1677-01-1a
(lines 484-487 and 528-531): for each index `i` of the target array,
`con = sim[i] / target[i]` and the stored entry is `np.abs(con)`. -/
def nr1677_valueRatio (target sim : List ℚ) : List ℚ :=
  (List.range target.length).map (fun i => |sim.getD i 0 / target.getD i 0|)

/-- The Ratio column of the element-forces tables of vm-nr1677-01-1a
(lines 612-624): each row appends the MAPDL value `values[1]`, the
target, and `values[1] / target` — with no absolute value taken
(lines 616 and 623). -/
def nr1677_elemForceRatio (mapdlValue target : ℚ) : ℚ := mapdlValue / target

/-- C9 counterexample: the element-forces tables of vm-nr1677-01-1a print
`values[1] / target` without `np.abs`, so at the table's first target
24.019 (node 12, axial force) a solver value of -24.019 yields the
printed ratio -1: negative, and not `np.abs(sim/target)`. -/
theorem elem_force_ratio_negative :
    nr1677_elemForceRatio (-(24019/1000)) (24019/1000) = -1
    ∧ nr1677_elemForceRatio (-(24019/1000)) (24019/1000) < 0
    ∧ nr1677_elemForceRatio (-(24019/1000)) (24019/1000)
        ≠ |(-(24019/1000) : ℚ) / (24019/1000)| := by
  norm_num [nr1677_elemForceRatio]

/-- C9 amended: the vm-001 ratios are `abs(reaction)/target` and both
`value_ratio` loops of vm-nr1677-01-1a store `np.abs(sim/target)`, so
those ratio columns are nonnegative and unchanged under a sign flip of
the computed value; but the element-forces tables of vm-nr1677-01-1a
print `values[1] / target` without `np.abs`, which keeps the sign of the
solver value and is negative whenever the solver value and the positive
target have opposite signs. -/
theorem ratio_columns_signs (reaction_1 reaction_2 : ℚ) (target sim : List ℚ) :
    (0 ≤ (vm001_results reaction_1 reaction_2).1.ratio)
    ∧ (0 ≤ (vm001_results reaction_1 reaction_2).2.ratio)
    ∧ ((vm001_results (-reaction_1) reaction_2).1.ratio
        = (vm001_results reaction_1 reaction_2).1.ratio)
    ∧ ((vm001_results reaction_1 reaction_2).1.mapdlValue = |reaction_1|)
    ∧ (∀ i : Fin (nr1677_valueRatio target sim).length,
        0 ≤ (nr1677_valueRatio target sim).get i)
    ∧ (∀ t s : ℚ, nr1677_valueRatio [t] [s] = [|s / t|])
    ∧ (∀ v t : ℚ, nr1677_elemForceRatio v t = v / t)
    ∧ (∀ v t : ℚ, v < 0 → 0 < t → nr1677_elemForceRatio v t < 0) := by
  refine ⟨?_, ?_, ?_, rfl, ?_, ?_, fun v t => rfl, ?_⟩
  · exact div_nonneg (abs_nonneg _) (by norm_num)
  · exact div_nonneg (abs_nonneg _) (by norm_num)
  · simp [vm001_results]
  · intro i
    simp [nr1677_valueRatio]
  · intro t s
    simp [nr1677_valueRatio, List.range_succ]
  · intro v t hv ht
    exact div_neg_of_neg_of_pos hv ht

/-- Witness for the amended C9 at a concrete negative solver value and
positive target. -/
theorem ratio_columns_signs_witness :
    ((-1 : ℚ) < 0 ∧ (0 : ℚ) < 2) ∧ nr1677_elemForceRatio (-1) 2 < 0 :=
  ⟨⟨by norm_num, by norm_num⟩,
    (ratio_columns_signs 0 0 [] []).2.2.2.2.2.2.2 (-1) 2 (by norm_num) (by norm_num)⟩

/-- Analytic reference displacement shown in the TARGET column of the
first vm-291 comparison table (lines 268, 280, 292, 306):
`uy = p * (1 - nuxy ** 2) / (pi * exx * r)`, where `p` is the force
magnitude set at line 223, `nuxy` and `exx` the material constants of
lines 139-141, `pi` the float `math.pi` of line 125 (kept abstract as a
rational), and `r` the radial node position. -/
def vm291_uy (pi p nuxy exx r : ℚ) : ℚ := p * (1 - nuxy ^ 2) / (pi * exx * r)

/-- Analytic reference displacement below the point load in vm-291
(lines 270, 282, 294, 308):
`up = p / (2 * pi * exx * z) * (1 + nuxy + 2 - 2 * nuxy ** 2)`. -/
def vm291_up (pi p nuxy exx z : ℚ) : ℚ :=
  p / (2 * pi * exx * z) * (1 + nuxy + 2 - 2 * nuxy ^ 2)

/-- The vm-291 `value1` array (line 320): the analytic TARGET entries
`uy2, uy3, uy4` at radii 2, 3, 4, with `nuxy = 0.1` and `exx = 1.0` as
the script sets them, still as functions of `pi` and the force magnitude
`p`. -/
def vm291_value1 (pi p : ℚ) : List ℚ :=
  [vm291_uy pi p (1/10) 1 2, vm291_uy pi p (1/10) 1 3, vm291_uy pi p (1/10) 1 4]

/-- The vm-291 `value_ratio1` list (lines 322-325): entry `i` is
`value1[i] / value_ana1[i]`, dividing the computed analytic reference by
the MAPDL result `value_ana1[i]`. -/
def vm291_valueRatio1 (pi p : ℚ) (valueAna1 : List ℚ) : List ℚ :=
  (List.range (vm291_value1 pi p).length).map
    (fun i => (vm291_value1 pi p).getD i 0 / valueAna1.getD i 0)

/-- C3 counterexample: the TARGET entries of the first vm-291 comparison
table are not literal hard-coded constants — `value1` is computed from the
script's force parameter `p` (among others), so no fixed list of constants
equals it for every `p`; concretely, with the abstract `pi` taken as 3,
the entries at `p = -1` and `p = 1` differ. -/
theorem vm291_targets_not_literal :
    vm291_value1 3 (-1) ≠ vm291_value1 3 1
    ∧ ¬ ∃ c : List ℚ, ∀ p : ℚ, vm291_value1 3 p = c := by
  have hne : vm291_value1 3 (-1) ≠ vm291_value1 3 1 := by
    intro h
    have h0 := congrArg (fun l => l.getD 0 0) h
    norm_num [vm291_value1, vm291_uy] at h0
  exact ⟨hne, fun ⟨c, hc⟩ => hne ((hc (-1)).trans (hc 1).symm)⟩

/-- C3 amended: in vm-001 each printed ratio is computed against the
literal targets 900 and 600, but in vm-291 the TARGET column holds values
the script computes from its parameters through the analytic formulas, and
each ratio entry divides that computed reference by the MAPDL result. -/
theorem reference_values_amended (reaction_1 reaction_2 pi p : ℚ) (valueAna1 : List ℚ) :
    ((vm001_results reaction_1 reaction_2).1.ratio * 900 = |reaction_1|)
    ∧ ((vm001_results reaction_1 reaction_2).2.ratio * 600 = |reaction_2|)
    ∧ (vm291_valueRatio1 pi p valueAna1
        = [vm291_uy pi p (1/10) 1 2 / valueAna1.getD 0 0,
           vm291_uy pi p (1/10) 1 3 / valueAna1.getD 1 0,
           vm291_uy pi p (1/10) 1 4 / valueAna1.getD 2 0])
    ∧ vm291_value1 3 (-1) ≠ vm291_value1 3 1 := by
  refine ⟨?_, ?_, ?_, ?_⟩
  · simp [vm001_results]
  · simp [vm001_results]
  · simp [vm291_valueRatio1, vm291_value1, List.range_succ]
  · intro h
    have h0 := congrArg (fun l => l.getD 0 0) h
    norm_num [vm291_value1, vm291_uy] at h0

/-- Kind of a raise statement appearing in a repository file. -/
inductive RaiseKind where
  | valueError
  | other
  deriving DecidableEq

/-- Structural facts of one repository source file, transcribed from the
file text: whether it is an example script (as opposed to build
configuration or a jupyter setup helper), whether it launches MAPDL and
calls `mapdl.exit()`, whether any MAPDL command follows an
`mapdl.exit()` call, the number of try/except statements, the number of
custom exception classes, the raise statements, the classes it defines,
and whether it creates threads, registers callbacks or imports threading
machinery. -/
structure ScriptFacts where
  name : String
  isExampleScript : Bool
  launchesMapdl : Bool
  hasExitCall : Bool
  mapdlCallsAfterExit : Bool
  tryExceptCount : Nat
  customExceptionClasses : Nat
  raiseKinds : List RaiseKind
  classNames : List String
  threadingConstructs : Bool
  deriving DecidableEq

/-- A standard VM/tech-demo example script: launches MAPDL, issues its
commands, and ends with `mapdl.exit()` as its last statement; contains no
try/except, no raise, no class definition, and no threading construct. -/
def vmScript (name : String) : ScriptFacts :=
  { name := name, isExampleScript := true, launchesMapdl := true, hasExitCall := true,
    mapdlCallsAfterExit := false, tryExceptCount := 0, customExceptionClasses := 0,
    raiseKinds := [], classNames := [], threadingConstructs := false }

/-- A non-example helper file (jupyter-execute setup): no MAPDL use, no
try/except, no raise, no class, no threading construct. -/
def helperFile (name : String) : ScriptFacts :=
  { name := name, isExampleScript := false, launchesMapdl := false, hasExitCall := false,
    mapdlCallsAfterExit := false, tryExceptCount := 0, customExceptionClasses := 0,
    raiseKinds := [], classNames := [], threadingConstructs := false }

/-- `doc/source/conf.py`: the Sphinx build configuration.  It holds the
repository's only try/except (lines 152-156, catching `AttributeError`
around a pyvista window-size setting, no MAPDL call involved); it never
touches MAPDL and contains no raise, class, or threading construct. -/
def confPy : ScriptFacts :=
  { name := "doc/source/conf.py", isExampleScript := false, launchesMapdl := false,
    hasExitCall := false, mapdlCallsAfterExit := false, tryExceptCount := 1,
    customExceptionClasses := 0, raiseKinds := [], classNames := [],
    threadingConstructs := false }

/-- `ex_25-tecstent.py`: launches MAPDL at line 39 and calls
`mapdl.exit()` twice (lines 308 and 503); between the two exits
(lines 324-490) it keeps issuing MAPDL commands (post-processing of the
modal results). -/
def ex25Tecstent : ScriptFacts :=
  { name := "doc/source/technology_showcase_examples/techdemo-25/ex_25-tecstent.py",
    isExampleScript := true, launchesMapdl := true, hasExitCall := true,
    mapdlCallsAfterExit := true, tryExceptCount := 0, customExceptionClasses := 0,
    raiseKinds := [], classNames := [], threadingConstructs := false }

/-- `28-example-technology-showcase-tecfricstir.py`: launches MAPDL at
line 42 but never calls `mapdl.exit()`. -/
def tecfricstir28 : ScriptFacts :=
  { name := "examples/tech-demos/28-example-technology-showcase-tecfricstir.py",
    isExampleScript := true, launchesMapdl := true, hasExitCall := false,
    mapdlCallsAfterExit := false, tryExceptCount := 0, customExceptionClasses := 0,
    raiseKinds := [], classNames := [], threadingConstructs := false }

/-- `vm-008-parametric_calculation.py`: defines the class `Create`
(line 107) holding the instance state `_p1`/`_p2`, and contains four
`raise ValueError(...)` statements (lines 154, 156, 170, 172); it ends
with `mapdl.exit()` as its last statement. -/
def vm008Facts : ScriptFacts :=
  { name := "examples/verif-manual/vm-008-parametric_calculation.py",
    isExampleScript := true, launchesMapdl := true, hasExitCall := true,
    mapdlCallsAfterExit := false, tryExceptCount := 0, customExceptionClasses := 0,
    raiseKinds := [.valueError, .valueError, .valueError, .valueError],
    classNames := ["Create"], threadingConstructs := false }

/-- The 24 source files of the repository with their structural facts. -/
def repoScripts : List ScriptFacts :=
  [ helperFile "doc/source/common_jupyter_execute.py",
    vmScript "doc/source/verif-manual/vm-012/vm12.py",
    helperFile "doc/source/technology_showcase_examples/common_jupyter_execute.py",
    ex25Tecstent,
    confPy,
    vmScript "examples/verif-manual/vm-001-statically_indeterminate_reaction_force_analysis.py",
    vm008Facts,
    vmScript "examples/verif-manual/vm-011-residual-stress-problem.py",
    vmScript "examples/verif-manual/vm-012-combined-bending-and-torsion.py",
    vmScript "examples/verif-manual/vm-013.py",
    vmScript "examples/verif-manual/vm-014.py",
    vmScript "examples/verif-manual/vm-015.py",
    vmScript "examples/verif-manual/vm-016.py",
    vmScript "examples/verif-manual/vm-018.py",
    vmScript "examples/verif-manual/vm-020.py",
    vmScript "examples/verif-manual/vm-021.py",
    vmScript "examples/verif-manual/vm-025.py",
    vmScript "examples/verif-manual/vm-291.py",
    vmScript "examples/verif-manual/vm-295.py",
    vmScript "examples/verif-manual/vm-298.py",
    vmScript "examples/verif-manual/vm-299.py",
    vmScript "examples/verif-manual/vm-nr1677-01-1a.py",
    tecfricstir28,
    vmScript "examples/tech-demos/td-62-example-technology-showcase-inverse_cardiovascular.py" ]

/-- The names of the MAPDL method calls issued by ex_25-tecstent.py after
its first `mapdl.exit()` at line 308, in source order (lines 324-490). -/
def tecstentCallsAfterFirstExit : List String :=
  ["post1", "set", "plnsol", "result", "result_file", "slashsolu", "antype", "spopt",
   "psdunit", "psdfrq", "psdval", "dmprat", "d", "pfact", "psdres", "psdres", "psdres",
   "psdcom", "solve", "post1", "set", "plnsol", "set", "plnsol", "post26", "numvar",
   "cmsel", "queries.ndnext", "store", "nsol", "rpsd", "show", "plvar", "prvar",
   "gropt", "gropt", "plvar", "show", "dim", "dim", "vget", "vget", "parameters",
   "parameters"]

/-- The lifecycle discipline C4 asserts of every script: if it launches
MAPDL it later calls `mapdl.exit()`, and no MAPDL command follows an
`mapdl.exit()`. -/
def cleanLifecycle (s : ScriptFacts) : Bool :=
  !s.launchesMapdl || (s.hasExitCall && !s.mapdlCallsAfterExit)

/-- C4 counterexample: the claimed connect-issue-exit lifecycle fails on
the corpus — ex_25-tecstent.py sends 44 further MAPDL calls after its
first `mapdl.exit()`, and 28-...-tecfricstir.py launches MAPDL but never
calls `mapdl.exit()` at all. -/
theorem lifecycle_claim_fails :
    repoScripts.all cleanLifecycle = false
    ∧ ex25Tecstent ∈ repoScripts ∧ cleanLifecycle ex25Tecstent = false
    ∧ tecfricstir28 ∈ repoScripts ∧ cleanLifecycle tecfricstir28 = false
    ∧ tecstentCallsAfterFirstExit.length = 44 := by
  refine ⟨by decide, by decide, rfl, by decide, rfl, rfl⟩

/-- C4 amended: every script that launches MAPDL, other than
ex_25-tecstent.py and 28-...-tecfricstir.py, later calls `mapdl.exit()`
and sends nothing afterwards; ex_25-tecstent.py keeps issuing MAPDL
commands after its first `mapdl.exit()` (closing with a second exit), and
28-...-tecfricstir.py never calls `mapdl.exit()`. -/
theorem lifecycle_amended :
    repoScripts.all (fun s => cleanLifecycle s
      || (s.name == ex25Tecstent.name || s.name == tecfricstir28.name)) = true
    ∧ ex25Tecstent.hasExitCall = true
    ∧ ex25Tecstent.mapdlCallsAfterExit = true
    ∧ tecfricstir28.launchesMapdl = true
    ∧ tecfricstir28.hasExitCall = false
    ∧ tecstentCallsAfterFirstExit ≠ [] := by
  refine ⟨by decide, rfl, rfl, rfl, rfl, by decide⟩

/-- C5: no example script contains a try/except, no repository file
defines a custom exception class, and every raise statement in the
repository raises the built-in `ValueError` — the four raises in the
`Create` setters of vm-008. -/
theorem no_exception_handling :
    repoScripts.all (fun s => (!s.isExampleScript || s.tryExceptCount == 0)
      && s.customExceptionClasses == 0
      && s.raiseKinds.all (fun k => k == RaiseKind.valueError)) = true
    ∧ vm008Facts.raiseKinds.length = 4 :=
  ⟨by decide, rfl⟩

/-- C6 counterexample: the claim that no script defines a class or
container holding model data fails — vm-008 defines `Create`, which
stores two coordinate points of the model as instance state. -/
theorem no_data_structures_claim_fails :
    repoScripts.all (fun s => s.classNames == []) = false
    ∧ vm008Facts ∈ repoScripts ∧ vm008Facts.classNames = ["Create"] := by
  refine ⟨by decide, by decide, rfl⟩

/-- C6 amended: vm-008's `Create` — storing two coordinate points as the
instance state read back by its getters — is the only class any
repository file defines; no other script defines a class or stateful
container of its own. -/
theorem only_create_class (a b : PyVal) :
    repoScripts.all (fun s => s.classNames == [] || s.name == vm008Facts.name) = true
    ∧ vm008Facts.classNames = ["Create"]
    ∧ Create.p1 ⟨a, b⟩ = a ∧ Create.p2 ⟨a, b⟩ = b :=
  ⟨by decide, rfl, rfl, rfl⟩

/-- One MAPDL command issued inside the vm-298 non_interactive block
(lines 319-345). -/
inductive PsdCmd where
  | psdunit (j : Nat)
  | psdfrq (j k : Nat) (freq : ℚ)
  | psdval (j : Nat) (v : ℚ)
  | coval (j k : Nat) (v : ℚ)
  | shw
  | plopts
  | psdgraph (a b c : Nat)
  | fdele (j : Nat)
  | f (node : Nat) (v : ℚ)
  | pfact (j : Nat)
  deriving DecidableEq

/-- vm-298 line 143: `_N = 40`, the number of stories. -/
def vm298_N : Nat := 40

/-- vm-298 line 253: `FREQ_PTS = 120`, the number of wind-load spectrum
input points. -/
def vm298_FREQ_PTS : Nat := 120

/-- Innermost frequency loop of the vm-298 block (lines 324-329): for
each `i in range(FREQ_PTS)`, issue `psdfrq(j, k, FREQ_ARRAY[i][0])`, then
`psdval(j, COPHIFF[j, j, i] * fact)` when `j == k`, else
`coval(j, k, COPHIFF[j, k, i] * fact)`.  The solver-supplied arrays
`FREQ_ARRAY` and `COPHIFF` are abstract rational-valued inputs. -/
def vm298_freqLoop (freqArray : Nat → ℚ) (cophiff : Nat → Nat → Nat → ℚ)
    (fact : ℚ) (j k : Nat) : List PsdCmd :=
  (List.range vm298_FREQ_PTS).flatMap (fun i =>
    [PsdCmd.psdfrq j k (freqArray i)]
      ++ (if j == k then [PsdCmd.psdval j (cophiff j j i * fact)]
          else [PsdCmd.coval j k (cophiff j k i * fact)]))

/-- Body of the outer `for j in range(1, _N)` loop (lines 320-345):
`psdunit(j, "FORC")`, the inner `for k in range(j, _N)` frequency loops,
the two conditional plot blocks at `j == 40` and `j == 1`, then
`fdele(j, "FX")`, `f(j + 1, "FX", 1.0)` and `pfact(j, "NODE")`. -/
def vm298_jBody (freqArray : Nat → ℚ) (cophiff : Nat → Nat → Nat → ℚ)
    (fact : ℚ) (j : Nat) : List PsdCmd :=
  [PsdCmd.psdunit j]
    ++ (List.range' j (vm298_N - j)).flatMap (vm298_freqLoop freqArray cophiff fact j)
    ++ (if j == 40 then [PsdCmd.shw, PsdCmd.plopts, PsdCmd.psdgraph (j - 1) j 3] else [])
    ++ (if j == 1 then [PsdCmd.shw, PsdCmd.plopts, PsdCmd.psdgraph (j - 1) j 3] else [])
    ++ [PsdCmd.fdele j, PsdCmd.f (j + 1) 1, PsdCmd.pfact j]

/-- The full command sequence batched inside `with mapdl.non_interactive:`
in vm-298: the bodies of `for j in range(1, _N)` concatenated in loop
order. -/
def vm298_nonInteractiveBlock (freqArray : Nat → ℚ) (cophiff : Nat → Nat → Nat → ℚ)
    (fact : ℚ) : List PsdCmd :=
  (List.range' 1 (vm298_N - 1)).flatMap (vm298_jBody freqArray cophiff fact)

/-- The `j` arguments of the PSDUNIT commands of a command sequence, in
emission order. -/
def psdunitIndices (cmds : List PsdCmd) : List Nat :=
  cmds.filterMap (fun c => match c with | .psdunit j => some j | _ => none)

/-- `psdunitIndices` distributes over concatenation. -/
theorem psdunitIndices_append (a b : List PsdCmd) :
    psdunitIndices (a ++ b) = psdunitIndices a ++ psdunitIndices b :=
  List.filterMap_append a b _

/-- The inner frequency loop issues no PSDUNIT command. -/
theorem psdunitIndices_freqLoop (freqArray : Nat → ℚ) (cophiff : Nat → Nat → Nat → ℚ)
    (fact : ℚ) (j k : Nat) :
    psdunitIndices (vm298_freqLoop freqArray cophiff fact j k) = [] := by
  rw [psdunitIndices, List.filterMap_eq_nil_iff]
  intro c hc
  simp only [vm298_freqLoop, List.mem_flatMap, List.mem_append, List.mem_singleton] at hc
  obtain ⟨i, _, hc | hc⟩ := hc
  · subst hc; rfl
  · by_cases h : (j == k) = true
    · simp only [h, if_true, List.mem_singleton] at hc
      subst hc; rfl
    · simp only [h, if_false, Bool.false_eq_true, List.mem_singleton] at hc
      subst hc; rfl

/-- All inner frequency loops of one `j` iteration together issue no
PSDUNIT command. -/
theorem psdunitIndices_freqLoops (freqArray : Nat → ℚ) (cophiff : Nat → Nat → Nat → ℚ)
    (fact : ℚ) (j : Nat) :
    psdunitIndices ((List.range' j (vm298_N - j)).flatMap
      (vm298_freqLoop freqArray cophiff fact j)) = [] := by
  rw [psdunitIndices, List.filterMap_eq_nil_iff]
  intro c hc
  rw [List.mem_flatMap] at hc
  obtain ⟨k, _, hck⟩ := hc
  have h := psdunitIndices_freqLoop freqArray cophiff fact j k
  rw [psdunitIndices, List.filterMap_eq_nil_iff] at h
  exact h c hck

/-- One iteration of the outer loop issues exactly one PSDUNIT command,
with the loop's own index. -/
theorem psdunitIndices_jBody (freqArray : Nat → ℚ) (cophiff : Nat → Nat → Nat → ℚ)
    (fact : ℚ) (j : Nat) :
    psdunitIndices (vm298_jBody freqArray cophiff fact j) = [j] := by
  rw [vm298_jBody, psdunitIndices_append, psdunitIndices_append, psdunitIndices_append,
    psdunitIndices_append, psdunitIndices_freqLoops]
  by_cases h40 : (j == 40) = true <;> by_cases h1 : (j == 1) = true <;>
    simp [h40, h1, psdunitIndices]

/-- The outer loop, run over any index list, issues the PSDUNIT commands
exactly in the order of that list. -/
theorem psdunitIndices_bindList (freqArray : Nat → ℚ) (cophiff : Nat → Nat → Nat → ℚ)
    (fact : ℚ) (l : List Nat) :
    psdunitIndices (l.flatMap (vm298_jBody freqArray cophiff fact)) = l := by
  induction l with
  | nil => rfl
  | cons a l ih =>
    rw [List.flatMap_cons, psdunitIndices_append, psdunitIndices_jBody, ih]
    rfl

/-- C10: no repository file creates threads, registers callbacks or
imports threading machinery, and the commands batched inside the vm-298
non_interactive block are emitted deterministically in program order: for
any solver-supplied spectrum data, the PSDUNIT commands carry
`j = 1, ..., 39` exactly in the order of the `for j in range(1, _N)`
loop. -/
theorem single_threaded_program_order (freqArray : Nat → ℚ)
    (cophiff : Nat → Nat → Nat → ℚ) (fact : ℚ) :
    repoScripts.all (fun s => !s.threadingConstructs) = true
    ∧ psdunitIndices (vm298_nonInteractiveBlock freqArray cophiff fact)
        = List.range' 1 39 := by
  refine ⟨by decide, ?_⟩
  rw [vm298_nonInteractiveBlock, psdunitIndices_bindList]
  rfl
